import Mathlib

/-!
Verification of the conversational agent orchestration runtime of the
scientific-analysis-agent repository, as a shallow embedding of the Python
sources (`src/python/viewmodels/chat_viewmodel.py`, `src/python/agent/graph.py`,
`src/python/agent/tools/...`, `src/python/utils/tool_registry.py`).

Python strings are modelled as Lean `String` (a list of characters, matching
Python's code-point view), dictionaries as association lists, and the Qt/
LangGraph event plumbing as explicit lists of emitted events.  External
collaborators (the language model, the LangGraph stream) are parameters of the
embedded functions: the stream consumed by `StreamingAgentWorker.run` is an
input list of stream items, and the guardrail classifier is a function
argument.
-/

/-! ## Python primitive values

The user-supplied form values and the serialized interrupt field dictionaries
are Python dicts of primitive values (the form field types are
text/number/select/boolean).  Numbers are modelled as integers. -/

/-- A primitive Python value as it appears in form-value dictionaries. -/
inductive PyPrim
  | str (s : String)
  | num (n : Int)
  | boolean (b : Bool)
  deriving DecidableEq, Repr

/-- A Python dict with string keys and primitive values, as an association list
(insertion ordered, like a Python dict). -/
abbrev PyDict := List (String × PyPrim)

/-- A single-quote character as a string (used by Python `repr`). -/
def squote : String := "\x27"

/-- Python `repr` of a primitive value, as used when a dict is interpolated
into an f-string. -/
def pyReprPrim : PyPrim → String
  | .str s => squote ++ s ++ squote
  | .num n => toString n
  | .boolean b => if b then "True" else "False"

/-- Python `repr` of a dict, as produced by interpolating the dict into an
f-string: keys are single-quoted, entries separated by a comma and space. -/
def pyReprDict (d : PyDict) : String :=
  "\x7b" ++
    String.intercalate ", "
      (d.map (fun kv => squote ++ kv.1 ++ squote ++ ": " ++ pyReprPrim kv.2)) ++
  "\x7d"

/-! ## Message model of the conversation controller

`ChatMessage` in `chat_viewmodel.py`: a sender tag ("User", "Agent", "System")
and a content string.  The controller's `_messages` list is the persisted
conversation history. -/

/-- One chat entry in the controller's persisted history
(`ChatMessage` in `viewmodels/chat_viewmodel.py`). -/
structure ChatMessage where
  sender : String
  content : String
  deriving DecidableEq, Repr

/-- Characters removed by Python `str.strip()` with no arguments
(ASCII whitespace). -/
def isPySpace (c : Char) : Bool :=
  c = ' ' || c = '\t' || c = '\n' || c = '\r' || c = '\x0b' || c = '\x0c'

/-- Python `content.strip()`: drop leading and trailing whitespace. -/
def pyStrip (s : String) : String :=
  String.mk (((s.data.dropWhile isPySpace).reverse.dropWhile isPySpace).reverse)

/-- Result of `ChatViewModel.send_user_message`: the new history, the messages
emitted through the `message_added` signal, and whether `_process_with_agent`
was entered (a worker turn started). -/
structure SendResult where
  messages : List ChatMessage
  emitted : List ChatMessage
  workerStarted : Bool
  deriving DecidableEq, Repr

/-- `ChatViewModel.send_user_message`: returns immediately when the stripped
content is empty (Python falsy string); otherwise appends a User message,
emits it, and proceeds to agent processing. -/
def send_user_message (messages : List ChatMessage) (content : String) : SendResult :=
  if pyStrip content = "" then ⟨messages, [], false⟩
  else
    ⟨messages ++ [⟨"User", content⟩], [⟨"User", content⟩], true⟩

/-- `if self._messages and self._messages[-1].sender == "User": self._messages.pop()`
from `ChatViewModel._on_streaming_finished`. -/
def popIfLastUser (messages : List ChatMessage) : List ChatMessage :=
  match messages.getLast? with
  | some m => if m.sender = "User" then messages.dropLast else messages
  | none => messages

/-- Result of `ChatViewModel._on_streaming_finished`: new history, new
`_waiting_for_input` flag, and the strings emitted through `agent_response`. -/
structure FinishedResult where
  messages : List ChatMessage
  waiting_for_input : Bool
  agentResponses : List String
  deriving DecidableEq, Repr

/-- `ChatViewModel._on_streaming_finished`: with a nonempty accumulated
response, a blocked turn pops the trailing User message (appending nothing),
while an unblocked turn appends the response as an Agent message; in both
cases the response is emitted via `agent_response`.  The controller's
`_waiting_for_input` is set from the worker's final state. -/
def on_streaming_finished (messages : List ChatMessage) (current_response : String)
    (blocked : Bool) (state_waiting : Bool) : FinishedResult :=
  if current_response = "" then ⟨messages, state_waiting, []⟩
  else if blocked then ⟨popIfLastUser messages, state_waiting, [current_response]⟩
  else ⟨messages ++ [⟨"Agent", current_response⟩], state_waiting, [current_response]⟩

/-- Controller state relevant to cancellation
(`_messages`, `_current_response`, `_waiting_for_input`). -/
structure CtrlState where
  messages : List ChatMessage
  current_response : String
  waiting_for_input : Bool
  deriving DecidableEq, Repr

/-- `ChatViewModel.stop_generation`: when a worker is running it disconnects
the worker's signals (so `_on_streaming_finished` never fires for this run)
and, if a partial response has been accumulated, appends it to the history as
an Agent message and clears it; `_waiting_for_input` is not touched. -/
def stop_generation (st : CtrlState) (workerRunning : Bool) : CtrlState :=
  if workerRunning then
    if st.current_response = "" then st
    else
      { messages := st.messages ++ [⟨"Agent", st.current_response⟩],
        current_response := "",
        waiting_for_input := st.waiting_for_input }
  else st

/-- Input handed to a `StreamingAgentWorker`: either the converted message
history (a fresh turn) or a LangGraph `Command(resume=values)`. -/
inductive WorkerInput
  | newMessages (msgs : List ChatMessage)
  | resumeCommand (values : PyDict)
  deriving DecidableEq, Repr

/-- `ChatViewModel.submit_user_input`: returns without doing anything only
when no agent is configured; otherwise it always starts a resume worker with
`Command(resume=values)`.  The `waiting` argument records whether the thread
is actually suspended waiting for input; the source never consults it. -/
def submit_user_input (agentAvailable : Bool) (waiting : Bool) (values : PyDict) :
    Option WorkerInput :=
  if agentAvailable then some (.resumeCommand values) else none

/-! ## Tool-result preview

`StreamingAgentWorker.run` emits, for every `ToolMessage` in the stream,
`message.content[:100] if len(message.content) > 100 else message.content`. -/

/-- The tool-activity preview of a tool result content. -/
def result_preview (content : String) : String :=
  if content.length > 100 then String.mk (content.data.take 100) else content

/-! ## Workflow engine state and routing (`agent/graph.py`)

Graph messages carry a role, content, and the names of any tool calls
(`AIMessage.tool_calls`; empty for roles that have none). -/

/-- Role of a message in the LangGraph state. -/
inductive MsgRole
  | user | agent | system | tool
  deriving DecidableEq, Repr

/-- A message in the graph's `messages` channel. -/
structure GMessage where
  role : MsgRole
  content : String
  tool_calls : List String
  deriving DecidableEq, Repr

/-- The runtime state dict consulted by the routing functions.  The `blocked`
key may be absent (`state.get("blocked", False)`), hence an `Option`. -/
structure GraphState where
  messages : List GMessage
  blocked : Option Bool
  deriving DecidableEq, Repr

/-- Nodes of the compiled workflow, with `terminal` standing for LangGraph's
`END`. -/
inductive GraphNode
  | guardrail | agent | tools | terminal
  deriving DecidableEq, Repr

/-- `route_after_guardrail`: to the agent unless `state.get("blocked", False)`
is true, to `END` otherwise. -/
def route_after_guardrail (state : GraphState) : GraphNode :=
  if state.blocked.getD false then .terminal else .agent

/-- `should_continue`: inspects `messages[-1]` (raising on an empty history,
hence `none`) and routes to the tools node exactly when it carries at least
one tool call. -/
def should_continue (state : GraphState) : Option GraphNode :=
  match state.messages.getLast? with
  | none => none
  | some last => some (if last.tool_calls.isEmpty then .terminal else .tools)

/-- The edge wiring of `create_agent`: conditional edges after `guardrail`
and `agent`, an unconditional edge `tools -> agent`, and no edge out of
`END`. -/
def next_node (current : GraphNode) (state : GraphState) : Option GraphNode :=
  match current with
  | .guardrail => some (route_after_guardrail state)
  | .agent => should_continue state
  | .tools => some .agent
  | .terminal => none

/-! ## Guardrail node (`create_guardrail_node` in `agent/graph.py`) -/

/-- The enumerated guardrail outcome. -/
inductive GuardrailOutcome
  | allowed | blocked
  deriving DecidableEq, Repr

/-- Modelled from the spec: `agent/graph.py` imports `GuardrailDecision` from
`agent.models`, but the class definition is absent from the sources (only
`InputField` and `InputRequest` are defined there).  Per the spec the
guardrail "classifies via a structured (not free-text) decision with an
enumerated outcome `{allowed, blocked}` plus a reason string". -/
structure GuardrailDecision where
  decision : GuardrailOutcome
  reason : String
  deriving DecidableEq, Repr

/-- The rejection text synthesized by `guardrail_node` on a blocked decision,
with the decision's reason interpolated at the end. -/
def guardrail_rejection (reason : String) : String :=
  "죄송합니다. 이 요청은 과학 시각화 분석과 관련이 없어 처리할 수 없습니다. " ++
  "VTK 데이터 시각화, 필터 적용, 파이프라인 조작 등에 관해 질문해 주세요.\n\n" ++
  "(Reason: " ++ reason ++ ")"

/-- The state patch returned by the guardrail node: messages to append and the
`blocked` flag. -/
structure GuardrailResult where
  new_messages : List GMessage
  blocked : Bool
  deriving DecidableEq, Repr

/-- `guardrail_node`: a no-op (`blocked=false`, nothing emitted) when the
history is empty or its last entry is not a `HumanMessage`; otherwise the
structured classifier decides, and a blocked decision yields exactly one
Agent-role rejection message plus `blocked=true`. -/
def guardrail_node (classify : String → GuardrailDecision) (messages : List GMessage) :
    GuardrailResult :=
  match messages.getLast? with
  | none => ⟨[], false⟩
  | some last =>
    if last.role = .user then
      match (classify last.content).decision with
      | .blocked =>
        ⟨[⟨.agent, guardrail_rejection (classify last.content).reason, []⟩], true⟩
      | .allowed => ⟨[], false⟩
    else ⟨[], false⟩

/-! ## Tool registry (`agent/tools/__init__.py`, `utils/tool_registry.py`) -/

/-- A registered tool.  Only the registered name is load-bearing for the
registry claims; descriptions and invokers are elided. -/
structure ToolDef where
  name : String
  deriving DecidableEq, Repr

/-- The static tool list of `get_all_tools`, in source order: the LangChain
`@tool` functions of `agent/tools/filter.py`, `agent/tools/visualization.py`
and `agent/tools/interaction.py` (tool name = function name). -/
def static_tools : List ToolDef :=
  [⟨"apply_slice_filter"⟩, ⟨"apply_clip_filter"⟩, ⟨"set_color_by"⟩,
   ⟨"set_representation"⟩, ⟨"set_opacity"⟩, ⟨"set_visual_property"⟩,
   ⟨"auto_fit_scalar_range"⟩, ⟨"set_scalar_range"⟩, ⟨"set_camera_view"⟩,
   ⟨"set_view_plane"⟩, ⟨"reset_camera_view"⟩, ⟨"get_filter_params"⟩,
   ⟨"update_slice_filter_params"⟩, ⟨"update_clip_filter_params"⟩,
   ⟨"request_user_input"⟩]

/-- A bound method found by `inspect.getmembers`: its attribute name and, when
decorated with `@expose_tool(name, description)`, the registered tool name. -/
structure ReflectedMember where
  method_name : String
  tool_tag : Option String
  deriving DecidableEq, Repr

/-- `generate_tools` in `utils/tool_registry.py`: scan the members (in
`inspect.getmembers` order), keep those tagged `_is_tool`, and build a tool
per tag using the decorator's name.  No name-collision check is performed. -/
def generate_tools (members : List ReflectedMember) : List ToolDef :=
  members.filterMap (fun m => m.tool_tag.map (fun n => (⟨n⟩ : ToolDef)))

/-- The methods of `PipelineViewModel` as yielded by `inspect.getmembers`
(sorted by attribute name), with the `@expose_tool` tags from
`viewmodels/pipeline_viewmodel.py`. -/
def pipeline_vm_members : List ReflectedMember :=
  [⟨"add_source", none⟩,
   ⟨"apply_filter", none⟩,
   ⟨"auto_fit_scalar_range", some "auto_fit_scalar_range"⟩,
   ⟨"commit_filter", none⟩,
   ⟨"create_cone_source", none⟩,
   ⟨"delete_item", some "delete_item"⟩,
   ⟨"get_available_filters", none⟩,
   ⟨"get_children", none⟩,
   ⟨"get_filter", none⟩,
   ⟨"get_parent_item", none⟩,
   ⟨"get_pipeline_info", some "get_pipeline_info"⟩,
   ⟨"get_root_source_id", none⟩,
   ⟨"load_file", none⟩,
   ⟨"load_time_series", none⟩,
   ⟨"select_item", some "select_pipeline_item"⟩,
   ⟨"set_color_by", some "set_color_by"⟩,
   ⟨"set_gaussian_scale", none⟩,
   ⟨"set_line_width", none⟩,
   ⟨"set_opacity", some "set_opacity"⟩,
   ⟨"set_point_size", none⟩,
   ⟨"set_representation", some "set_representation"⟩,
   ⟨"set_scalar_range", some "set_scalar_range"⟩,
   ⟨"set_visibility", some "set_visibility"⟩,
   ⟨"set_visual_property", some "set_visual_property"⟩,
   ⟨"update_filter_params", none⟩,
   ⟨"update_time_step", none⟩]

/-- `get_all_tools`: the static tools, extended with the tools reflected off
the pipeline viewmodel when one has been registered.  The function is total:
no uniqueness check, no error path. -/
def get_all_tools (pipeline_vm : Option (List ReflectedMember)) : List ToolDef :=
  static_tools ++
    (match pipeline_vm with
     | some vm => generate_tools vm
     | none => [])

/-! ## Interrupt/resume protocol (`agent/tools/interaction.py`)

A tool body that may suspend is a computation that either finishes with a
result or suspends on an interrupt payload with a continuation expecting the
value later supplied by `Command(resume=values)`. -/

/-- The payload a suspended tool yields: the value passed to
`interrupt(...)` in `request_user_input`. -/
structure InterruptPayload where
  description : String
  fields : List PyDict
  deriving DecidableEq, Repr

/-- A tool computation: finished, or suspended at an interrupt whose
continuation receives the resume value. -/
inductive ToolComp (α : Type)
  | done (result : α)
  | suspend (payload : InterruptPayload) (k : PyDict → ToolComp α)

/-- `request_user_input`: never returns on first invocation; it suspends on
`interrupt()` with the description and the (already dict-shaped) fields, and
once resumed returns the resume value interpolated into a fixed template. -/
def request_user_input (description : String) (fields : List PyDict) : ToolComp String :=
  .suspend ⟨description, fields⟩ (fun user_input =>
    .done ("User Input Received: " ++ pyReprDict user_input ++
      ". Proceed with the requested action using these values."))

/-- Resuming a computation with `Command(resume=values)`: the suspended
continuation receives the values; a finished computation is unchanged. -/
def resumeWith {α : Type} (c : ToolComp α) (values : PyDict) : ToolComp α :=
  match c with
  | .done r => .done r
  | .suspend _ k => k values

/-- The result of a computation, when it has finished. -/
def resultOf {α : Type} : ToolComp α → Option α
  | .done r => some r
  | .suspend _ _ => none

/-- The `name` entry of a serialized field dict, when present and a string. -/
def fieldName (fd : PyDict) : Option String :=
  match fd.lookup "name" with
  | some (.str s) => some s
  | _ => none

/-- The field names of an interrupt's field list (the names a resume value map
is expected to cover). -/
def requiredFieldNames (fields : List PyDict) : List String :=
  fields.filterMap fieldName

/-! ## Streaming execution driver (`StreamingAgentWorker.run`)

The LangGraph stream consumed by the worker is an input: a list of stream
items, each one `(mode, event)` pair the `for` loop receives.  The events the
worker emits through its Qt signals are collected in order. -/

/-- One item of the `agent.stream(..., stream_mode=["messages", "updates"])`
iterator, as inspected by `StreamingAgentWorker.run`. -/
inductive StreamItem
  | interruptUpdate (description : String) (fields : List PyDict)
  | plainUpdate
  | aiChunk (node : String) (content : String) (toolChunkNames : List String)
  | aiMessage (content : String) (toolCallNames : List String)
  | toolMessage (tool_name : String) (content : String)
  deriving DecidableEq, Repr

/-- The final worker-state dict handed to `finished.emit`: the two keys the
controller reads (`waiting_for_input`, `input_fields`). -/
structure WorkerState where
  waiting_for_input : Bool
  input_fields : List PyDict
  deriving DecidableEq, Repr

/-- An event emitted by the worker through one of its signals. -/
inductive Emission
  | token (s : String)
  | toolActivity (tool_name : String) (result : String)
  | inputRequested (description : String) (fields : List PyDict)
  | finished (st : WorkerState)
  | errorMsg (msg : String)
  deriving DecidableEq, Repr

/-- The status string emitted for a tool call that is being made. -/
def callingStatus : String := "호출 중..."

/-- The emissions produced while processing one stream item: an interrupt
update emits `input_requested`; guardrail chunks are skipped; AI chunks and
messages emit a tool-activity per named tool call then their content as a
token; a tool message emits a tool-activity carrying the result preview. -/
def chunkEmissions (item : StreamItem) : List Emission :=
  match item with
  | .interruptUpdate d f => [.inputRequested d f]
  | .plainUpdate => []
  | .aiChunk node content toolChunkNames =>
    if node = "guardrail" then []
    else
      toolChunkNames.map (fun n => .toolActivity n callingStatus) ++
        (if content = "" then [] else [.token content])
  | .aiMessage content toolCallNames =>
    toolCallNames.map (fun n => .toolActivity n callingStatus) ++
      (if content = "" then [] else [.token content])
  | .toolMessage n content => [.toolActivity n (result_preview content)]

/-- The payload of the last interrupt update among the processed items (the
worker's state dict keeps the fields of the most recent one). -/
def lastInterrupt : List StreamItem → Option (String × List PyDict)
  | [] => none
  | .interruptUpdate d f :: rest => some ((lastInterrupt rest).getD (d, f))
  | .plainUpdate :: rest => lastInterrupt rest
  | .aiChunk _ _ _ :: rest => lastInterrupt rest
  | .aiMessage _ _ :: rest => lastInterrupt rest
  | .toolMessage _ _ :: rest => lastInterrupt rest

/-- The tail of a normally terminating run: after the loop, if no interrupt
was handled the state snapshot is consulted and a pending task interrupt is
surfaced as a late `input_requested`; then `finished` is always emitted with
the final worker state. -/
def runToEnd (processed : List StreamItem) (snapshot : Option (String × List PyDict)) :
    List Emission :=
  match lastInterrupt processed with
  | some (_, f) => processed.flatMap chunkEmissions ++ [.finished ⟨true, f⟩]
  | none =>
    match snapshot with
    | some (d, f) =>
      processed.flatMap chunkEmissions ++ [.inputRequested d f] ++ [.finished ⟨true, f⟩]
    | none => processed.flatMap chunkEmissions ++ [.finished ⟨false, []⟩]

/-- The items actually processed by the loop: the cooperative stop flag is
checked at the top of each iteration, so a stop observed at iteration `s`
leaves exactly the first `s` items processed. -/
def stopCut (events : List StreamItem) (stopAt : Option Nat) : List StreamItem :=
  match stopAt with
  | some s => events.take s
  | none => events

/-- One full run of `StreamingAgentWorker.run`.  `events` is the stream,
`stopAt` the iteration at which the stop flag is first observed set (if ever),
`snapshot` the pending task interrupt of `get_state` (if any), and `excAt`
an exception raised while producing item `k` (with its message).  The `try`
block turns an exception into a single `error` emission; otherwise the run
ends in a single `finished` emission. -/
def runWorker (events : List StreamItem) (stopAt : Option Nat)
    (snapshot : Option (String × List PyDict)) (excAt : Option (Nat × String)) :
    List Emission :=
  match excAt with
  | none => runToEnd (stopCut events stopAt) snapshot
  | some (k, msg) =>
    match stopAt with
    | some s =>
      if s < k then runToEnd (events.take s) snapshot
      else if k ≤ events.length then
        (events.take k).flatMap chunkEmissions ++ [.errorMsg msg]
      else runToEnd (events.take s) snapshot
    | none =>
      if k ≤ events.length then
        (events.take k).flatMap chunkEmissions ++ [.errorMsg msg]
      else runToEnd events snapshot

/-- A terminal emission in the sense of the spec's completion/error events. -/
def isTerminal : Emission → Bool
  | .finished _ => true
  | .errorMsg _ => true
  | _ => false

/-! ## Helper lemmas about the streaming driver -/

/-- Processing a single stream item never produces a finished or error
emission. -/
theorem chunkEmissions_not_terminal (item : StreamItem) :
    ∀ e ∈ chunkEmissions item, isTerminal e = false := by
  intro e he
  cases item with
  | interruptUpdate d f =>
    simp [chunkEmissions] at he
    subst he; rfl
  | plainUpdate => simp [chunkEmissions] at he
  | aiChunk node content toolChunkNames =>
    by_cases hn : node = "guardrail"
    · simp [chunkEmissions, hn] at he
    · simp only [chunkEmissions, if_neg hn, List.mem_append, List.mem_map] at he
      rcases he with ⟨n, _, rfl⟩ | he
      · rfl
      · by_cases hc : content = ""
        · simp [hc] at he
        · simp [hc] at he
          subst he; rfl
  | aiMessage content toolCallNames =>
    simp only [chunkEmissions, List.mem_append, List.mem_map] at he
    rcases he with ⟨n, _, rfl⟩ | he
    · rfl
    · by_cases hc : content = ""
      · simp [hc] at he
      · simp [hc] at he
        subst he; rfl
  | toolMessage n content =>
    simp [chunkEmissions] at he
    subst he; rfl

/-- The in-loop emissions of a run contain no terminal emission. -/
theorem countP_body_zero (items : List StreamItem) :
    (items.flatMap chunkEmissions).countP isTerminal = 0 := by
  rw [List.countP_eq_zero]
  intro e he
  rw [List.mem_flatMap] at he
  rcases he with ⟨item, _, hmem⟩
  simp [chunkEmissions_not_terminal item e hmem]

/-- A normally terminating run has exactly one terminal emission, and it is
the last one. -/
theorem runToEnd_one_terminal (processed : List StreamItem)
    (snapshot : Option (String × List PyDict)) :
    (runToEnd processed snapshot).countP isTerminal = 1 ∧
    ∃ e, (runToEnd processed snapshot).getLast? = some e ∧ isTerminal e = true := by
  unfold runToEnd
  cases h : lastInterrupt processed with
  | some r =>
    obtain ⟨d, f⟩ := r
    refine ⟨?_, _, List.getLast?_concat _, rfl⟩
    rw [List.countP_append, countP_body_zero]
    rfl
  | none =>
    cases snapshot with
    | some df =>
      obtain ⟨d, f⟩ := df
      refine ⟨?_, _, List.getLast?_concat _, rfl⟩
      rw [List.countP_append, List.countP_append, countP_body_zero]
      rfl
    | none =>
      refine ⟨?_, _, List.getLast?_concat _, rfl⟩
      rw [List.countP_append, countP_body_zero]
      rfl

/-- When the loop recorded an interrupt, an interrupt update with that
payload occurs among the processed items. -/
theorem lastInterrupt_mem (items : List StreamItem) (d : String) (f : List PyDict) :
    lastInterrupt items = some (d, f) → StreamItem.interruptUpdate d f ∈ items := by
  induction items with
  | nil => intro h; simp [lastInterrupt] at h
  | cons item rest ih =>
    intro h
    cases item with
    | interruptUpdate d2 f2 =>
      rw [lastInterrupt] at h
      injection h with h
      cases hr : lastInterrupt rest with
      | some r =>
        rw [hr] at h
        simp only [Option.getD_some] at h
        subst h
        exact List.mem_cons_of_mem _ (ih hr)
      | none =>
        rw [hr] at h
        simp only [Option.getD_none] at h
        injection h with h1 h2
        subst h1; subst h2
        exact List.mem_cons_self _ _
    | plainUpdate =>
      rw [lastInterrupt] at h
      exact List.mem_cons_of_mem _ (ih h)
    | aiChunk a b c =>
      rw [lastInterrupt] at h
      exact List.mem_cons_of_mem _ (ih h)
    | aiMessage a b =>
      rw [lastInterrupt] at h
      exact List.mem_cons_of_mem _ (ih h)
    | toolMessage a b =>
      rw [lastInterrupt] at h
      exact List.mem_cons_of_mem _ (ih h)

/-! ## Claim theorems -/

/-- C9: for every user input string that is empty or consists only of
whitespace, `send_user_message` is a no-op — the history is unchanged, no
message-added event is emitted, and no agent worker is started. -/
theorem send_whitespace_noop (messages : List ChatMessage) (content : String)
    (h : ∀ c ∈ content.data, isPySpace c = true) :
    send_user_message messages content = ⟨messages, [], false⟩ := by
  have h1 : content.data.dropWhile isPySpace = [] :=
    List.dropWhile_eq_nil_iff.mpr h
  simp [send_user_message, pyStrip, h1]

/-- Witness for C9: sending a whitespace-only string leaves a concrete
history unchanged. -/
theorem send_whitespace_noop_witness :
    (∀ c ∈ ("  \t ".data), isPySpace c = true) ∧
    send_user_message [⟨"System", "hi"⟩] "  \t " = ⟨[⟨"System", "hi"⟩], [], false⟩ :=
  ⟨by decide, send_whitespace_noop _ _ (by decide)⟩

/-- C10: the tool-activity preview of a streamed tool result is the full
content when its length is at most 100 characters, exactly the first 100
characters otherwise, and never exceeds 100 characters. -/
theorem tool_result_preview_spec (content : String) :
    (content.length ≤ 100 → result_preview content = content) ∧
    (100 < content.length → result_preview content = String.mk (content.data.take 100)) ∧
    (result_preview content).length ≤ 100 := by
  refine ⟨?_, ?_, ?_⟩
  · intro h
    unfold result_preview
    rw [if_neg (by omega)]
  · intro h
    unfold result_preview
    rw [if_pos (by omega)]
  · unfold result_preview
    by_cases h : content.length > 100
    · rw [if_pos h]
      have hlen : (String.mk (content.data.take 100)).length =
        (content.data.take 100).length := rfl
      rw [hlen, List.length_take]
      omega
    · rw [if_neg h]
      omega

/-- Witness for C10: a short content is previewed in full and within the
bound. -/
theorem tool_result_preview_spec_witness :
    result_preview "abc" = "abc" ∧ (result_preview "abc").length ≤ 100 :=
  ⟨(tool_result_preview_spec "abc").1 (by decide), (tool_result_preview_spec "abc").2.2⟩

/-- C5: the workflow routing is exactly: after the Guardrail node execution
goes to the Agent node if `blocked` is false and to End otherwise; after the
Agent node it goes to the Tools node if the latest message carries at least
one tool call and to End otherwise; after the Tools node it goes back to the
Agent node unconditionally. -/
theorem workflow_routing_spec (state : GraphState) :
    (state.blocked.getD false = false → next_node .guardrail state = some .agent) ∧
    (state.blocked.getD false = true → next_node .guardrail state = some .terminal) ∧
    (∀ last, state.messages.getLast? = some last →
      (last.tool_calls ≠ [] → next_node .agent state = some .tools) ∧
      (last.tool_calls = [] → next_node .agent state = some .terminal)) ∧
    next_node .tools state = some .agent := by
  refine ⟨?_, ?_, ?_, rfl⟩
  · intro h
    simp [next_node, route_after_guardrail, h]
  · intro h
    simp [next_node, route_after_guardrail, h]
  · intro last hlast
    constructor
    · intro h
      simp [next_node, should_continue, hlast, List.isEmpty_iff, h]
    · intro h
      simp [next_node, should_continue, hlast, List.isEmpty_iff, h]

/-- Witness for C5: with an unblocked state whose last message has a tool
call, guardrail routes to agent and agent routes to tools. -/
theorem workflow_routing_spec_witness :
    next_node .guardrail ⟨[⟨.agent, "x", ["get_pipeline_info"]⟩], some false⟩ =
      some .agent ∧
    next_node .agent ⟨[⟨.agent, "x", ["get_pipeline_info"]⟩], some false⟩ =
      some .tools := by
  constructor
  · exact (workflow_routing_spec _).1 (by decide)
  · exact ((workflow_routing_spec _).2.2.1 ⟨.agent, "x", ["get_pipeline_info"]⟩
      (by decide)).1 (by decide)

/-- C6: the guardrail node is a no-op returning `blocked=false` with no
message when the history is empty or its last entry is not a User message;
on an allowed decision it returns `blocked=false` and emits nothing; on a
blocked decision it emits exactly one Agent-role rejection message embedding
the decision's reason and sets `blocked=true`. -/
theorem guardrail_node_spec (classify : String → GuardrailDecision)
    (messages : List GMessage) :
    (messages = [] → guardrail_node classify messages = ⟨[], false⟩) ∧
    (∀ last, messages.getLast? = some last →
      (¬ last.role = .user → guardrail_node classify messages = ⟨[], false⟩) ∧
      (last.role = .user →
        ((classify last.content).decision = .allowed →
          guardrail_node classify messages = ⟨[], false⟩) ∧
        ((classify last.content).decision = .blocked →
          guardrail_node classify messages =
            ⟨[⟨.agent, guardrail_rejection (classify last.content).reason, []⟩], true⟩ ∧
          ∃ s t, guardrail_rejection (classify last.content).reason =
            s ++ (classify last.content).reason ++ t))) := by
  constructor
  · intro h
    subst h
    rfl
  · intro last hlast
    constructor
    · intro hrole
      simp [guardrail_node, hlast, hrole]
    · intro hrole
      constructor
      · intro hdec
        simp [guardrail_node, hlast, hrole, hdec]
      · intro hdec
        constructor
        · simp [guardrail_node, hlast, hrole, hdec]
        · exact ⟨"죄송합니다. 이 요청은 과학 시각화 분석과 관련이 없어 처리할 수 없습니다. " ++
            "VTK 데이터 시각화, 필터 적용, 파이프라인 조작 등에 관해 질문해 주세요.\n\n" ++
            "(Reason: ", ")", rfl⟩

/-- Witness for C6: a concrete blocked decision on a trailing User message
yields exactly one Agent rejection embedding the reason and sets blocked. -/
theorem guardrail_node_spec_witness :
    guardrail_node (fun _ => ⟨.blocked, "not visualization"⟩)
        [⟨.user, "주식 추천해줘", []⟩] =
      ⟨[⟨.agent, guardrail_rejection "not visualization", []⟩], true⟩ :=
  (((guardrail_node_spec (fun _ => ⟨.blocked, "not visualization"⟩)
      [⟨.user, "주식 추천해줘", []⟩]).2 ⟨.user, "주식 추천해줘", []⟩ rfl).2 rfl).2 rfl |>.1

/-- C7 (amended): `submit_user_input` rejects only the missing-agent case;
it never consults the waiting-for-input state and always starts a resume
worker with `Command(resume=values)` when an agent is configured. -/
theorem submit_user_input_no_waiting_check (waiting : Bool) (values : PyDict) :
    submit_user_input true waiting values = some (.resumeCommand values) ∧
    submit_user_input false waiting values = none :=
  ⟨rfl, rfl⟩

/-- Counterexample for C7: resuming with an agent configured but no run
waiting for input still starts a worker (the claim requires that no new turn
be driven). -/
theorem resume_without_suspension_counterexample :
    submit_user_input true false [] = some (.resumeCommand []) ∧
    submit_user_input true false [] ≠ none := by
  constructor
  · rfl
  · decide

/-- Counterexample for C3: with the pipeline viewmodel registered, the tool
list returned by `get_all_tools` contains duplicate names (for example
`set_color_by` is registered both statically and by reflection) and no error
is raised. -/
theorem tool_names_duplicate_counterexample :
    ¬ ((get_all_tools (some pipeline_vm_members)).map (fun t => t.name)).Nodup ∧
    ((get_all_tools (some pipeline_vm_members)).filter
      (fun t => t.name = "set_color_by")).length = 2 := by
  constructor
  · decide
  · decide

/-- C3 (amended): registration performs no uniqueness check — `get_all_tools`
always returns the concatenation of the static and reflected tools with no
error path; the static names alone are pairwise distinct, but the reflected
pipeline-viewmodel tools duplicate six static names (e.g. `set_opacity`). -/
theorem tool_registry_no_uniqueness_check :
    (∀ members, get_all_tools (some members) = static_tools ++ generate_tools members) ∧
    (static_tools.map (fun t => t.name)).Nodup ∧
    ((get_all_tools (some pipeline_vm_members)).filter
      (fun t => t.name = "set_opacity")).length = 2 :=
  ⟨fun _ => rfl, by decide, by decide⟩

/-- C4 (amended): resuming a run suspended at `request_user_input` with a
value map covering the required field names makes the suspended tool call
return the fixed template "User Input Received: V. Proceed with the
requested action using these values." with the value map rendered inside it. -/
theorem resume_returns_template (description : String) (fields : List PyDict)
    (values : PyDict)
    (h : ∀ n ∈ requiredFieldNames fields, n ∈ values.map Prod.fst) :
    resultOf (resumeWith (request_user_input description fields) values) =
      some ("User Input Received: " ++ pyReprDict values ++
        ". Proceed with the requested action using these values.") := rfl

/-- Witness for C4: resuming a concrete suspended call returns the template
with the concrete values rendered inside. -/
theorem resume_returns_template_witness :
    (∀ n ∈ requiredFieldNames [[("name", PyPrim.str "normal_x")]],
      n ∈ ([("normal_x", PyPrim.num 1)] : PyDict).map Prod.fst) ∧
    resultOf (resumeWith
        (request_user_input "slice plane" [[("name", PyPrim.str "normal_x")]])
        [("normal_x", PyPrim.num 1)]) =
      some ("User Input Received: " ++ pyReprDict [("normal_x", PyPrim.num 1)] ++
        ". Proceed with the requested action using these values.") :=
  ⟨by decide, resume_returns_template "slice plane" _ _ (by decide)⟩

/-- Counterexample for C4: the resumed tool call does not return exactly the
value map rendered as text — the returned string wraps that rendering in a
fixed sentence. -/
theorem resume_exact_value_counterexample :
    (∀ n ∈ requiredFieldNames [[("name", PyPrim.str "normal_x")]],
      n ∈ ([("normal_x", PyPrim.num 1)] : PyDict).map Prod.fst) ∧
    resultOf (resumeWith (request_user_input "d" [[("name", PyPrim.str "normal_x")]])
        [("normal_x", PyPrim.num 1)]) ≠
      some (pyReprDict [("normal_x", PyPrim.num 1)]) := by
  constructor
  · decide
  · decide

/-- C2 (amended): every worker run emits exactly one terminal (finished or
error) event, and it is the last emission; a turn that suspends at an
interrupt emits the `input_requested` event in addition to — not in place
of — the `finished` event, whose state records `waiting_for_input=true`. -/
theorem one_terminal_event_per_run :
    (∀ events stopAt snapshot excAt,
      (runWorker events stopAt snapshot excAt).countP isTerminal = 1 ∧
      ∃ e, (runWorker events stopAt snapshot excAt).getLast? = some e ∧
        isTerminal e = true) ∧
    (∀ events snapshot d f, lastInterrupt events = some (d, f) →
      Emission.inputRequested d f ∈ runWorker events none snapshot none ∧
      Emission.finished ⟨true, f⟩ ∈ runWorker events none snapshot none) := by
  constructor
  · intro events stopAt snapshot excAt
    cases excAt with
    | none => exact runToEnd_one_terminal _ _
    | some km =>
      obtain ⟨k, msg⟩ := km
      cases stopAt with
      | some s =>
        simp only [runWorker]
        by_cases h1 : s < k
        · rw [if_pos h1]
          exact runToEnd_one_terminal _ _
        · rw [if_neg h1]
          by_cases h2 : k ≤ events.length
          · rw [if_pos h2]
            refine ⟨?_, _, List.getLast?_concat _, rfl⟩
            rw [List.countP_append, countP_body_zero]
            rfl
          · rw [if_neg h2]
            exact runToEnd_one_terminal _ _
      | none =>
        simp only [runWorker]
        by_cases h2 : k ≤ events.length
        · rw [if_pos h2]
          refine ⟨?_, _, List.getLast?_concat _, rfl⟩
          rw [List.countP_append, countP_body_zero]
          rfl
        · rw [if_neg h2]
          exact runToEnd_one_terminal _ _
  · intro events snapshot d f h
    have hmem : StreamItem.interruptUpdate d f ∈ events := lastInterrupt_mem _ _ _ h
    have hbody : Emission.inputRequested d f ∈ events.flatMap chunkEmissions := by
      rw [List.mem_flatMap]
      exact ⟨_, hmem, by simp [chunkEmissions]⟩
    show _ ∈ runToEnd events snapshot ∧ _ ∈ runToEnd events snapshot
    unfold runToEnd
    rw [h]
    exact ⟨List.mem_append_left _ hbody, List.mem_append_right _ (by simp)⟩

/-- Witness for C2: a concrete interrupting run emits both the input request
and the finished event. -/
theorem one_terminal_event_per_run_witness :
    Emission.inputRequested "need normal" [[("name", PyPrim.str "nx")]] ∈
      runWorker [.interruptUpdate "need normal" [[("name", PyPrim.str "nx")]]]
        none none none ∧
    Emission.finished ⟨true, [[("name", PyPrim.str "nx")]]⟩ ∈
      runWorker [.interruptUpdate "need normal" [[("name", PyPrim.str "nx")]]]
        none none none :=
  one_terminal_event_per_run.2 _ none "need normal" _ (by decide)

/-- Counterexample for C2: a run that suspends at an interrupt still emits a
`finished` event after the `input_requested` one, so the interrupted event is
not the only terminal event of the turn. -/
theorem interrupt_turn_emits_finished :
    runWorker [.interruptUpdate "d" []] none none none =
      [.inputRequested "d" [], .finished ⟨true, []⟩] ∧
    Emission.finished ⟨true, []⟩ ∈ runWorker [.interruptUpdate "d" []] none none none := by
  constructor
  · decide
  · decide

/-- C1 (amended): after a blocked turn whose rejection text was streamed,
the persisted history returns to exactly its pre-send state: the triggering
User message is removed and the rejection is only emitted to the UI via
`agent_response`, not appended to the history. -/
theorem blocked_turn_rollback (pre : List ChatMessage) (content rejection : String)
    (hc : pyStrip content ≠ "") (hr : rejection ≠ "") (w : Bool) :
    on_streaming_finished (send_user_message pre content).messages rejection true w =
      ⟨pre, w, [rejection]⟩ := by
  have hsend : (send_user_message pre content).messages = pre ++ [⟨"User", content⟩] := by
    simp [send_user_message, hc]
  rw [hsend]
  simp [on_streaming_finished, hr, popIfLastUser, List.getLast?_concat,
    List.dropLast_concat]

/-- Witness for C1: a concrete blocked turn restores the pre-send history and
emits (without persisting) the rejection. -/
theorem blocked_turn_rollback_witness :
    on_streaming_finished
        (send_user_message [⟨"System", "hello"⟩] "바이럴 마케팅 해줘").messages
        (guardrail_rejection "off topic") true false =
      ⟨[⟨"System", "hello"⟩], false, [guardrail_rejection "off topic"]⟩ :=
  blocked_turn_rollback [⟨"System", "hello"⟩] _ _ (by decide) (by decide) false

/-- Counterexample for C1: after a concrete blocked turn the persisted
history is empty — its length is the pre-send length plus zero, not plus one
Agent rejection message. -/
theorem blocked_turn_history_counterexample :
    (on_streaming_finished (send_user_message [] "주식 추천해줘").messages
      (guardrail_rejection "unrelated") true false).messages = [] ∧
    ¬ ((on_streaming_finished (send_user_message [] "주식 추천해줘").messages
      (guardrail_rejection "unrelated") true false).messages.length =
        ([] : List ChatMessage).length + 1) := by
  constructor
  · decide
  · decide

/-- C8 (amended): once the cancel flag is observed at a yield point the
driver processes no further stream items and emits no further token or
tool-activity events (everything after the processed prefix is the snapshot
fallback input request or the final finished event, which the controller has
disconnected), and `stop_generation` preserves any partial response by
appending it to the history while leaving `waiting_for_input` unchanged. -/
theorem cancel_stops_stream_consumption (events : List StreamItem) (s : Nat)
    (snapshot : Option (String × List PyDict)) (st : CtrlState)
    (h : st.current_response ≠ "") :
    (∃ tail, runWorker events (some s) snapshot none =
        (events.take s).flatMap chunkEmissions ++ tail ∧
      ∀ e ∈ tail, (∀ t, e ≠ .token t) ∧ (∀ n r, e ≠ .toolActivity n r)) ∧
    (stop_generation st true).messages = st.messages ++ [⟨"Agent", st.current_response⟩] ∧
    (stop_generation st true).waiting_for_input = st.waiting_for_input := by
  refine ⟨?_, ?_, ?_⟩
  · have hrw : runWorker events (some s) snapshot none =
        runToEnd (events.take s) snapshot := rfl
    rw [hrw]
    unfold runToEnd
    cases hli : lastInterrupt (events.take s) with
    | some r =>
      obtain ⟨d, f⟩ := r
      refine ⟨[.finished ⟨true, f⟩], rfl, ?_⟩
      intro e he
      simp at he
      subst he
      exact ⟨fun t => by simp, fun n r => by simp⟩
    | none =>
      cases snapshot with
      | some df =>
        obtain ⟨d, f⟩ := df
        refine ⟨[.inputRequested d f] ++ [.finished ⟨true, f⟩], ?_, ?_⟩
        · show (events.take s).flatMap chunkEmissions ++ [Emission.inputRequested d f] ++
              [Emission.finished ⟨true, f⟩] =
            (events.take s).flatMap chunkEmissions ++
              ([Emission.inputRequested d f] ++ [Emission.finished ⟨true, f⟩])
          rw [List.append_assoc]
        · intro e he
          simp at he
          rcases he with rfl | rfl
          · exact ⟨fun t => by simp, fun n r => by simp⟩
          · exact ⟨fun t => by simp, fun n r => by simp⟩
      | none =>
        refine ⟨[.finished ⟨false, []⟩], rfl, ?_⟩
        intro e he
        simp at he
        subst he
        exact ⟨fun t => by simp, fun n r => by simp⟩
  · simp [stop_generation, h]
  · simp [stop_generation, h]

/-- Witness for C8: a concrete cancelled run and a concrete controller state
with a pending partial response. -/
theorem cancel_stops_stream_consumption_witness :
    (∃ tail, runWorker [.aiChunk "agent" "hi" []] (some 1) none none =
        ([StreamItem.aiChunk "agent" "hi" []].take 1).flatMap chunkEmissions ++ tail ∧
      ∀ e ∈ tail, (∀ t, e ≠ .token t) ∧ (∀ n r, e ≠ .toolActivity n r)) ∧
    (stop_generation ⟨[], "partial", false⟩ true).messages =
      [] ++ [⟨"Agent", "partial"⟩] ∧
    (stop_generation ⟨[], "partial", false⟩ true).waiting_for_input = false :=
  cancel_stops_stream_consumption _ 1 none ⟨[], "partial", false⟩ (by decide)

/-- Counterexample for C8: a run cancelled after its first item still emits a
`finished` event afterwards, so the driver does emit further events after the
cancel signal is observed. -/
theorem cancel_still_emits_finished :
    runWorker [.aiChunk "agent" "hi" [], .aiChunk "agent" "!!" []] (some 1) none none =
      [.token "hi", .finished ⟨false, []⟩] ∧
    Emission.finished ⟨false, []⟩ ∈
      runWorker [.aiChunk "agent" "hi" [], .aiChunk "agent" "!!" []] (some 1) none none := by
  constructor
  · decide
  · decide
